import Mathlib

/-!
# Verification of the cw20-plus delegated-spending and mint-authority core

Shallow embedding of the mint-authority transfer of the contract
(`src/src/execute/execute_update_minter.rs`) and, modelled from the
specification, the allowance store and the spend-authorization engine that the
repository exercises through `src/tests/allowances_tests.rs`.

Machine integers (`Uint128`) are modelled as `Nat` with an explicit overflow
bound `2 ^ 128`; storage maps are total functions into `Option`; fallible
entry points return the resulting storage together with an `Except` result,
and every error path returns the input storage unchanged (mirroring both the
code, whose single save happens after all checks, and the transactional
rollback of the host).
-/

namespace Cw20

/-- Host execution context: block height and block time (nanoseconds). -/
structure Env where
  height : Nat
  time : Nat
deriving DecidableEq

/-- The message metadata: the calling address. -/
structure MessageInfo where
  sender : String
deriving DecidableEq

/-- Standard (host-level) errors surfaced through `ContractError::Std`. -/
inductive StdError
  | overflow
  | genericErr (msg : String)
deriving DecidableEq

/-- The error taxonomy of the contract (`crate::error::ContractError`). -/
inductive ContractError
  | Unauthorized
  | CannotSetOwnAccount
  | InvalidExpiration
  | Expired
  | Std (e : StdError)
deriving DecidableEq

/-- Mirrors `MinterData` (`crate::state`): the current mint-authority holder
and the optional immutable supply cap. -/
structure MinterData where
  minter : String
  cap : Option Nat
deriving DecidableEq

/-- Modelled from the spec: the token configuration stored under `TOKEN_INFO`
(`crate::state` is outside src/; the spec lists name/symbol/decimals/total
supply as metadata and the optional mint authority as the mutable part). -/
structure TokenInfo where
  name : String
  symbol : String
  decimals : Nat
  total_supply : Nat
  mint : Option MinterData
deriving DecidableEq

/-- The inner payload of the downstream `Cw20ReceiveMsg` notification. -/
structure Cw20ReceiveMsg where
  sender : String
  amount : Nat
  msg : String
deriving DecidableEq

/-- A downstream wasm-execute submessage addressed to a contract. -/
structure SubMsg where
  contract_addr : String
  msg : Cw20ReceiveMsg
  funds : List Nat
deriving DecidableEq

/-- The structured result of a successful execution. -/
structure Response where
  attributes : List (String × String)
  messages : List SubMsg
deriving DecidableEq

/-- `Response::default()`. -/
def Response.empty : Response := ⟨[], []⟩

/-- `Response::add_attribute`. -/
def Response.add_attribute (r : Response) (k v : String) : Response :=
  { r with attributes := r.attributes ++ [(k, v)] }

/-- `Response::add_message`. -/
def Response.add_message (r : Response) (m : SubMsg) : Response :=
  { r with messages := r.messages ++ [m] }

/-- Shallow embedding of `execute_update_minter`
(`src/src/execute/execute_update_minter.rs`).  `api` is the validator
`deps.api.addr_validate` of the host; `storage` is the optional `TOKEN_INFO` record.  The
result pairs the storage after the call with the outcome; all error returns
happen before the single `TOKEN_INFO.save`, so on error the storage is the
input storage. -/
def execute_update_minter (api : String → Except StdError String)
    (storage : Option TokenInfo) (env : Env) (info : MessageInfo)
    (new_minter : Option String) :
    Option TokenInfo × Except ContractError Response :=
  match storage with
  | none => (storage, .error .Unauthorized)
  | some config =>
    match config.mint with
    | none => (storage, .error .Unauthorized)
    | some mint =>
      if mint.minter ≠ info.sender then
        (storage, .error .Unauthorized)
      else
        match new_minter with
        | none =>
          (some { config with mint := none },
            .ok ((Response.empty.add_attribute "action" "update_minter").add_attribute
              "new_minter" "None"))
        | some nm =>
          match api nm with
          | .error e => (storage, .error (.Std e))
          | .ok validated =>
            (some { config with mint := some ⟨validated, mint.cap⟩ },
              .ok ((Response.empty.add_attribute "action" "update_minter").add_attribute
                "new_minter" validated))

/-- There is no mint authority: either no token configuration is stored, or
the `mint` field of the stored configuration is `None`. -/
def noMintAuthority : Option TokenInfo → Bool
  | none => true
  | some c => c.mint.isNone

/-- One `update_minter` call, with the host inputs it is invoked under. -/
structure MinterCall where
  api : String → Except StdError String
  env : Env
  info : MessageInfo
  new_minter : Option String

/-- Run a sequence of `update_minter` calls, threading the storage. -/
def runMinterCalls (calls : List MinterCall) (st : Option TokenInfo) :
    Option TokenInfo :=
  calls.foldl (fun s c => (execute_update_minter c.api s c.env c.info c.new_minter).1) st

/-- `Uint128` overflow bound: amounts live below `2 ^ 128`. -/
def UINT128_MOD : Nat := 2 ^ 128

/-- Allowance expiration (`cw20::Expiration`): never, at a block height, or at
a block time. -/
inductive Expiration
  | never
  | atHeight (h : Nat)
  | atTime (t : Nat)
deriving DecidableEq

/-- Modelled from the spec: `is_expired(e, ctx)` — `Never` is never expired,
`AtHeight(h)` is expired once `ctx.height >= h`, `AtTime(t)` once
`ctx.time >= t`. -/
def Expiration.is_expired : Expiration → Env → Bool
  | .never, _ => false
  | .atHeight h, env => decide (h ≤ env.height)
  | .atTime t, env => decide (t ≤ env.time)

/-- Modelled from the spec: `is_future(e, ctx)`, the strict creation-time
check — `Never` is future, `AtHeight(h)` requires `ctx.height < h`,
`AtTime(t)` requires `ctx.time < t`. -/
def Expiration.is_future : Expiration → Env → Bool
  | .never, _ => true
  | .atHeight h, env => decide (env.height < h)
  | .atTime t, env => decide (env.time < t)

/-- A stored allowance record (`cw20::AllowanceResponse`): the remaining
amount and the expiration. -/
structure AllowanceResponse where
  allowance : Nat
  expires : Expiration
deriving DecidableEq

/-- The implicit default record: `{remaining: 0, expiration: Never}`. -/
def AllowanceResponse.empty : AllowanceResponse := ⟨0, .never⟩

/-- The allowance store, keyed by `(owner, spender)`; `none` means no stored
record. -/
abbrev Allowances := String × String → Option AllowanceResponse

/-- Point update of the allowance store; writing `none` deletes the record. -/
def Allowances.set (st : Allowances) (k : String × String)
    (v : Option AllowanceResponse) : Allowances :=
  fun q => if q = k then v else st q

/-- Modelled from the spec: `query(owner, spender)` returns the stored record
or the implicit default — a total function, never an error
(`cw20_base::allowances::query_allowance`, not under src/). -/
def query_allowance (st : Allowances) (owner spender : String) :
    AllowanceResponse :=
  (st (owner, spender)).getD AllowanceResponse.empty

/-- Modelled from the spec: validation of an optionally supplied new
expiration — when given it must be strictly future (`InvalidExpiration`
otherwise); when absent the existing expiration is kept. -/
def pickExpiration (env : Env) (supplied : Option Expiration)
    (old : Expiration) : Except ContractError Expiration :=
  match supplied with
  | none => .ok old
  | some e => if e.is_future env then .ok e else .error .InvalidExpiration

/-- Modelled from the spec: `increase(owner, spender, delta, new_expiration?)`
(`cw20_base::allowances::execute_increase_allowance`, not under src/).
Rejects `owner == spender` with `CannotSetOwnAccount`; loads the current
record or the implicit default; validates a supplied expiration with
`is_future`; adds `delta` with an overflow check at the `Uint128` width; and
persists the record.  The caller (`info.sender`) is the owner; errors return
the store unchanged. -/
def execute_increase_allowance (env : Env) (info : MessageInfo)
    (spender : String) (amount : Nat) (expires : Option Expiration)
    (st : Allowances) : Allowances × Except ContractError Response :=
  if info.sender = spender then (st, .error .CannotSetOwnAccount)
  else
    let old := query_allowance st info.sender spender
    match pickExpiration env expires old.expires with
    | .error e => (st, .error e)
    | .ok exp2 =>
      if old.allowance + amount < UINT128_MOD then
        (st.set (info.sender, spender) (some ⟨old.allowance + amount, exp2⟩),
          .ok ((((Response.empty.add_attribute "action"
            "increase_allowance").add_attribute "owner"
            info.sender).add_attribute "spender" spender).add_attribute
            "amount" (toString amount)))
      else (st, .error (.Std .overflow))

/-- Modelled from the spec: `decrease(owner, spender, delta, new_expiration?)`
(`cw20_base::allowances::execute_decrease_allowance`, not under src/).  Same
self-allowance and expiration checks as increase; the new remaining is the
saturating subtraction; a floored-to-zero remaining deletes the record
regardless of the supplied expiration. -/
def execute_decrease_allowance (env : Env) (info : MessageInfo)
    (spender : String) (amount : Nat) (expires : Option Expiration)
    (st : Allowances) : Allowances × Except ContractError Response :=
  if info.sender = spender then (st, .error .CannotSetOwnAccount)
  else
    let old := query_allowance st info.sender spender
    match pickExpiration env expires old.expires with
    | .error e => (st, .error e)
    | .ok exp2 =>
      let resp := (((Response.empty.add_attribute "action"
        "decrease_allowance").add_attribute "owner"
        info.sender).add_attribute "spender" spender).add_attribute
        "amount" (toString amount)
      if old.allowance - amount = 0 then
        (st.set (info.sender, spender) none, .ok resp)
      else
        (st.set (info.sender, spender)
          (some ⟨old.allowance - amount, exp2⟩), .ok resp)

/-- Modelled from the spec: `deduct_for_spend(owner, spender, amount, ctx)`
(`cw20_base::allowances::deduct_allowance`, not under src/) — the single
authorization path of all three delegated spends.  An expired record fails
`Expired` regardless of remaining; a spend beyond remaining fails with the
arithmetic-overflow class error; on success a zero result deletes the record,
otherwise it is persisted with the unchanged expiration. -/
def deduct_allowance (env : Env) (owner spender : String) (amount : Nat)
    (st : Allowances) : Except ContractError Allowances :=
  let record := query_allowance st owner spender
  if record.expires.is_expired env then .error .Expired
  else if record.allowance < amount then .error (.Std .overflow)
  else if record.allowance - amount = 0 then .ok (st.set (owner, spender) none)
  else .ok (st.set (owner, spender)
    (some ⟨record.allowance - amount, record.expires⟩))

/-- The balance ledger (external collaborator): address → amount, absent is
read as 0. -/
abbrev Balances := String → Nat

/-- Checked ledger debit: fails closed on underflow. -/
def debit (bal : Balances) (a : String) (amount : Nat) :
    Except ContractError Balances :=
  if bal a < amount then .error (.Std .overflow)
  else .ok (fun q => if q = a then bal a - amount else bal q)

/-- Checked ledger credit: fails on overflow of the `Uint128` width. -/
def credit (bal : Balances) (a : String) (amount : Nat) :
    Except ContractError Balances :=
  if bal a + amount < UINT128_MOD then
    .ok (fun q => if q = a then bal a + amount else bal q)
  else .error (.Std .overflow)

/-- The state the spend-authorization engine touches: the balance ledger and
the allowance store. -/
structure SpendState where
  balances : Balances
  allowances : Allowances

/-- Modelled from the spec: delegated transfer (§4.3,
`cw20_base::allowances::execute_transfer_from`, not under src/): authorize
through `deduct_allowance`, then debit the owner and credit the recipient.
Any failure returns the input state unchanged (authorize-before-effect plus
the transactional rollback of the host). -/
def execute_transfer_from (env : Env) (info : MessageInfo)
    (owner recipient : String) (amount : Nat) (s : SpendState) :
    SpendState × Except ContractError Response :=
  match deduct_allowance env owner info.sender amount s.allowances with
  | .error e => (s, .error e)
  | .ok allow2 =>
    match debit s.balances owner amount with
    | .error e => (s, .error e)
    | .ok bal2 =>
      match credit bal2 recipient amount with
      | .error e => (s, .error e)
      | .ok bal3 =>
        (⟨bal3, allow2⟩,
          .ok (((((Response.empty.add_attribute "action"
            "transfer_from").add_attribute "from" owner).add_attribute
            "to" recipient).add_attribute "by" info.sender).add_attribute
            "amount" (toString amount)))

/-- Modelled from the spec: delegated burn (§4.3,
`cw20_base::allowances::execute_burn_from`, not under src/): authorize, then
debit the owner with no corresponding credit. -/
def execute_burn_from (env : Env) (info : MessageInfo)
    (owner : String) (amount : Nat) (s : SpendState) :
    SpendState × Except ContractError Response :=
  match deduct_allowance env owner info.sender amount s.allowances with
  | .error e => (s, .error e)
  | .ok allow2 =>
    match debit s.balances owner amount with
    | .error e => (s, .error e)
    | .ok bal2 =>
      (⟨bal2, allow2⟩,
        .ok ((((Response.empty.add_attribute "action"
          "burn_from").add_attribute "from" owner).add_attribute
          "by" info.sender).add_attribute "amount" (toString amount)))

/-- Modelled from the spec: delegated send (§4.3,
`cw20_base::allowances::execute_send_from`, not under src/): authorize, debit
the owner, credit the target contract, and emit one downstream notification
whose sender field is the delegated caller (`info.sender`). -/
def execute_send_from (env : Env) (info : MessageInfo)
    (owner contract : String) (amount : Nat) (msg : String) (s : SpendState) :
    SpendState × Except ContractError Response :=
  match deduct_allowance env owner info.sender amount s.allowances with
  | .error e => (s, .error e)
  | .ok allow2 =>
    match debit s.balances owner amount with
    | .error e => (s, .error e)
    | .ok bal2 =>
      match credit bal2 contract amount with
      | .error e => (s, .error e)
      | .ok bal3 =>
        (⟨bal3, allow2⟩,
          .ok ((((((Response.empty.add_attribute "action"
            "send_from").add_attribute "from" owner).add_attribute
            "to" contract).add_attribute "by" info.sender).add_attribute
            "amount" (toString amount)).add_message
            ⟨contract, ⟨info.sender, amount, msg⟩, []⟩))

/-- One allowance-touching operation, with the host inputs it runs under. -/
inductive AllowanceOp
  | inc (env : Env) (info : MessageInfo) (spender : String) (amount : Nat)
      (expires : Option Expiration)
  | dec (env : Env) (info : MessageInfo) (spender : String) (amount : Nat)
      (expires : Option Expiration)
  | xfer (env : Env) (info : MessageInfo) (owner recipient : String)
      (amount : Nat)
  | burn (env : Env) (info : MessageInfo) (owner : String) (amount : Nat)
  | send (env : Env) (info : MessageInfo) (owner contract : String)
      (amount : Nat) (msg : String)

/-- Apply one operation to the state, keeping the resulting state (failed
calls leave the state unchanged by construction). -/
def applyAllowanceOp (s : SpendState) : AllowanceOp → SpendState
  | .inc env info sp amt e =>
    ⟨s.balances, (execute_increase_allowance env info sp amt e s.allowances).1⟩
  | .dec env info sp amt e =>
    ⟨s.balances, (execute_decrease_allowance env info sp amt e s.allowances).1⟩
  | .xfer env info o r amt => (execute_transfer_from env info o r amt s).1
  | .burn env info o amt => (execute_burn_from env info o amt s).1
  | .send env info o c amt m => (execute_send_from env info o c amt m s).1

/-- Run a sequence of allowance-touching operations. -/
def runAllowanceOps (ops : List AllowanceOp) (s : SpendState) : SpendState :=
  ops.foldl applyAllowanceOp s

/-- The claimed store invariant: every stored record has remaining > 0. -/
def AllowancesPositive (st : Allowances) : Prop :=
  ∀ k r, st k = some r → 0 < r.allowance

/-- An operation whose increase amount is positive (non-increase operations
vacuously qualify). -/
def positiveIncrease : AllowanceOp → Prop
  | .inc _ _ _ amt _ => 0 < amt
  | _ => True

/-- An empty ledger and an empty allowance store. -/
def initialSpendState : SpendState := ⟨fun _ => 0, fun _ => none⟩

/-- The mock environment of the tests: height 12345, a fixed nanosecond
timestamp. -/
def env0 : Env := ⟨12345, 1571797419879305533⟩

/-- An address validator that accepts every address unchanged (the mock
api). -/
def okApi : String → Except StdError String := fun s => .ok s

/-- A concrete token configuration whose mint authority is held by
"alice" with a supply cap. -/
def tok0 : TokenInfo :=
  ⟨"Auto Gen", "AUTO", 3, 12340000, some ⟨"alice", some 999999⟩⟩

/-- `tok0` after its mint authority has been cleared. -/
def tokCleared : TokenInfo := ⟨"Auto Gen", "AUTO", 3, 12340000, none⟩

/-- The caller "owner" of the allowance scenarios. -/
def ownerInfo : MessageInfo := ⟨"owner"⟩

/-- The empty allowance store. -/
def emptyAllowances : Allowances := fun _ => none

/-- The block time of the override scenario: 8888888888 seconds, in
nanoseconds. -/
def timeT : Nat := 8888888888000000000

/-- Scenario step 1: increase(7777, AtHeight(123456)) on the empty store. -/
def stepA : Allowances :=
  (execute_increase_allowance env0 ownerInfo "spender" 7777
    (some (.atHeight 123456)) emptyAllowances).1

/-- Scenario step 2: decrease(4444, None). -/
def stepB : Allowances :=
  (execute_decrease_allowance env0 ownerInfo "spender" 4444 none stepA).1

/-- Scenario step 3: increase(87654, AtTime(T)). -/
def stepC : Allowances :=
  (execute_increase_allowance env0 ownerInfo "spender" 87654
    (some (.atTime timeT)) stepB).1

/-- A state whose single allowance "o" → "s" expires at height 5, with empty
balances. -/
def expiredState : SpendState :=
  ⟨fun _ => 0,
   fun k => if k = ("o", "s") then some ⟨100, .atHeight 5⟩ else none⟩

/-- A state able to fund a delegated send: owner "o" holds 100 and spender
"s" has a never-expiring allowance of 50. -/
def goodState : SpendState :=
  ⟨fun a => if a = "o" then 100 else 0,
   fun k => if k = ("o", "s") then some ⟨50, .never⟩ else none⟩

/-- The response of the concrete delegated send exercised below. -/
def sendResp : Response :=
  ⟨[("action", "send_from"), ("from", "o"), ("to", "c"), ("by", "s"),
    ("amount", "30")], [⟨"c", ⟨"s", 30, "payload"⟩, []⟩]⟩

section MinterTheorems

lemma noMintAuthority_call_fails (api : String → Except StdError String)
    (st : Option TokenInfo) (env : Env) (info : MessageInfo)
    (nm : Option String) (h : noMintAuthority st = true) :
    execute_update_minter api st env info nm = (st, .error .Unauthorized) := by
  cases st with
  | none => rfl
  | some c =>
    cases hm : c.mint with
    | none => simp [execute_update_minter, hm]
    | some m => simp [noMintAuthority, hm, Option.isNone] at h

lemma runMinterCalls_fixed (st : Option TokenInfo)
    (h : noMintAuthority st = true) (calls : List MinterCall) :
    runMinterCalls calls st = st := by
  induction calls with
  | nil => rfl
  | cons c cs ih =>
    have hc := noMintAuthority_call_fails c.api st c.env c.info c.new_minter h
    simp [runMinterCalls, List.foldl_cons, hc]
    simpa [runMinterCalls] using ih

/-- C1: `update_minter` fails with `Unauthorized` exactly when there is no
token configuration in storage, the configuration has no mint authority
record, or the caller is not the stored minter; and every such failure
leaves the storage unchanged. -/
theorem updateMinter_unauthorized_iff (api : String → Except StdError String)
    (storage : Option TokenInfo) (env : Env) (info : MessageInfo)
    (new_minter : Option String) :
    ((execute_update_minter api storage env info new_minter).2 =
        .error .Unauthorized ↔
      storage = none ∨ ∃ c, storage = some c ∧
        (c.mint = none ∨ ∃ m, c.mint = some m ∧ m.minter ≠ info.sender)) ∧
    ((execute_update_minter api storage env info new_minter).2 =
        .error .Unauthorized →
      (execute_update_minter api storage env info new_minter).1 = storage) := by
  cases storage with
  | none => simp [execute_update_minter]
  | some c =>
    cases hm : c.mint with
    | none => simp [execute_update_minter, hm]
    | some m =>
      by_cases hs : m.minter = info.sender
      · cases new_minter with
        | none => simp [execute_update_minter, hm, hs]
        | some nm =>
          cases ha : api nm with
          | error e => simp [execute_update_minter, hm, hs, ha]
          | ok v => simp [execute_update_minter, hm, hs, ha]
      · simp [execute_update_minter, hm, hs]

/-- Witness for C1: with no stored configuration, a concrete call fails
`Unauthorized` and leaves the storage unchanged. -/
theorem updateMinter_unauthorized_iff_witness :
    (execute_update_minter okApi none env0 ⟨"alice"⟩ none).2 =
      .error .Unauthorized ∧
    (execute_update_minter okApi none env0 ⟨"alice"⟩ none).1 = none :=
  ⟨(updateMinter_unauthorized_iff okApi none env0 ⟨"alice"⟩ none).1.mpr
      (Or.inl rfl),
   (updateMinter_unauthorized_iff okApi none env0 ⟨"alice"⟩ none).2
      ((updateMinter_unauthorized_iff okApi none env0 ⟨"alice"⟩ none).1.mpr
        (Or.inl rfl))⟩

/-- C2: a successful `update_minter(Some(address))` writes the validated new
address as minter, keeps the supply cap that was stored before the call, and
leaves every other field of the token configuration unchanged. -/
theorem updateMinter_some_preserves_cap (api : String → Except StdError String)
    (storage st2 : Option TokenInfo) (env : Env) (info : MessageInfo)
    (nm : String) (resp : Response)
    (h : execute_update_minter api storage env info (some nm) =
      (st2, .ok resp)) :
    ∃ c m v, storage = some c ∧ c.mint = some m ∧ api nm = .ok v ∧
      st2 = some { name := c.name, symbol := c.symbol, decimals := c.decimals,
                   total_supply := c.total_supply,
                   mint := some ⟨v, m.cap⟩ } := by
  cases storage with
  | none => simp [execute_update_minter] at h
  | some c =>
    cases hm : c.mint with
    | none => simp [execute_update_minter, hm] at h
    | some m =>
      by_cases hs : m.minter = info.sender
      · cases ha : api nm with
        | error e => simp [execute_update_minter, hm, hs, ha] at h
        | ok v =>
          refine ⟨c, m, v, rfl, hm, ha ▸ rfl, ?_⟩
          simp [execute_update_minter, hm, hs, ha] at h
          exact h.1.symm
      · simp [execute_update_minter, hm, hs] at h

/-- Witness for C2: "alice" hands the authority to "bob"; the cap and the
token metadata survive unchanged. -/
theorem updateMinter_some_preserves_cap_witness :
    ∃ c m v, (some tok0 : Option TokenInfo) = some c ∧ c.mint = some m ∧
      okApi "bob" = .ok v ∧
      (some (⟨"Auto Gen", "AUTO", 3, 12340000, some ⟨"bob", some 999999⟩⟩ :
          TokenInfo) : Option TokenInfo) =
        some { name := c.name, symbol := c.symbol, decimals := c.decimals,
               total_supply := c.total_supply,
               mint := some ⟨v, m.cap⟩ } :=
  updateMinter_some_preserves_cap okApi (some tok0)
    (some ⟨"Auto Gen", "AUTO", 3, 12340000, some ⟨"bob", some 999999⟩⟩)
    env0 ⟨"alice"⟩ "bob"
    ⟨[("action", "update_minter"), ("new_minter", "bob")], []⟩ rfl

/-- C3: clearing the mint authority is absorbing: after a successful
`update_minter(None)` no mint authority remains, and from that state every
sequence of `update_minter` calls leaves the state unchanged while every
individual call, by any caller with any argument, fails `Unauthorized`. -/
theorem updateMinter_clear_absorbing (api : String → Except StdError String)
    (storage st2 : Option TokenInfo) (env : Env) (info : MessageInfo)
    (resp : Response)
    (h : execute_update_minter api storage env info none = (st2, .ok resp)) :
    noMintAuthority st2 = true ∧
    (∀ calls : List MinterCall, runMinterCalls calls st2 = st2) ∧
    (∀ (calls : List MinterCall) (api2 : String → Except StdError String)
        (env2 : Env) (info2 : MessageInfo) (nm2 : Option String),
      execute_update_minter api2 (runMinterCalls calls st2) env2 info2 nm2 =
        (runMinterCalls calls st2, .error .Unauthorized)) := by
  have hcl : noMintAuthority st2 = true := by
    cases storage with
    | none => simp [execute_update_minter] at h
    | some c =>
      cases hm : c.mint with
      | none => simp [execute_update_minter, hm] at h
      | some m =>
        by_cases hs : m.minter = info.sender
        · simp [execute_update_minter, hm, hs] at h
          rw [← h.1]
          simp [noMintAuthority]
        · simp [execute_update_minter, hm, hs] at h
  refine ⟨hcl, fun calls => runMinterCalls_fixed st2 hcl calls, ?_⟩
  intro calls api2 env2 info2 nm2
  rw [runMinterCalls_fixed st2 hcl calls]
  exact noMintAuthority_call_fails api2 st2 env2 info2 nm2 hcl

/-- Witness for C3: "alice" clears the authority of `tok0`; afterwards no
authority remains, sequences of calls are inert, and every call fails. -/
theorem updateMinter_clear_absorbing_witness :
    noMintAuthority (some tokCleared) = true ∧
    (∀ calls : List MinterCall,
      runMinterCalls calls (some tokCleared) = some tokCleared) ∧
    (∀ (calls : List MinterCall) (api2 : String → Except StdError String)
        (env2 : Env) (info2 : MessageInfo) (nm2 : Option String),
      execute_update_minter api2 (runMinterCalls calls (some tokCleared))
          env2 info2 nm2 =
        (runMinterCalls calls (some tokCleared), .error .Unauthorized)) :=
  updateMinter_clear_absorbing okApi (some tok0) (some tokCleared) env0
    ⟨"alice"⟩ ⟨[("action", "update_minter"), ("new_minter", "None")], []⟩ rfl

/-- C10: `update_minter` never consults the execution environment: for every
storage state, caller and argument, any two environments produce the same
result and the same final state. -/
theorem updateMinter_env_independent (api : String → Except StdError String)
    (storage : Option TokenInfo) (info : MessageInfo)
    (nm : Option String) (env1 env2 : Env) :
    execute_update_minter api storage env1 info nm =
      execute_update_minter api storage env2 info nm := rfl

end MinterTheorems

section AllowanceTheorems

/-- C5: `GetAllowance` is a total function of the pair (it can only return a
record, never an error), and on every pair with no stored record it returns
exactly the default `{remaining: 0, expiration: Never}`. -/
theorem queryAllowance_total_default (st : Allowances)
    (owner spender : String) (h : st (owner, spender) = none) :
    query_allowance st owner spender = ⟨0, .never⟩ := by
  simp [query_allowance, h, AllowanceResponse.empty]

/-- Witness for C5: the empty store answers the default record. -/
theorem queryAllowance_total_default_witness :
    query_allowance emptyAllowances "owner" "spender" = ⟨0, .never⟩ :=
  queryAllowance_total_default emptyAllowances "owner" "spender" rfl

/-- C6: after a successful increase or decrease the stored expiration is the
supplied one when given and the previously stored one when absent; in
particular increase(7777, AtHeight(123456)) then decrease(4444, None) on an
empty pair yields `{remaining: 3333, expiration: AtHeight(123456)}`, and a
further increase carrying AtTime(T) overrides the expiration to AtTime(T). -/
theorem allowance_expiration_update (env : Env) (info : MessageInfo)
    (spender : String) (amount : Nat) (st : Allowances) :
    (∀ e : Expiration,
      (∃ r, (execute_increase_allowance env info spender amount (some e)
          st).2 = .ok r) →
      (execute_increase_allowance env info spender amount (some e) st).1
          (info.sender, spender) =
        some ⟨(query_allowance st info.sender spender).allowance + amount,
          e⟩) ∧
    ((∃ r, (execute_increase_allowance env info spender amount none st).2 =
        .ok r) →
      (execute_increase_allowance env info spender amount none st).1
          (info.sender, spender) =
        some ⟨(query_allowance st info.sender spender).allowance + amount,
          (query_allowance st info.sender spender).expires⟩) ∧
    (∀ e : Expiration,
      (∃ r, (execute_decrease_allowance env info spender amount (some e)
          st).2 = .ok r) →
      (query_allowance st info.sender spender).allowance - amount ≠ 0 →
      (execute_decrease_allowance env info spender amount (some e) st).1
          (info.sender, spender) =
        some ⟨(query_allowance st info.sender spender).allowance - amount,
          e⟩) ∧
    ((∃ r, (execute_decrease_allowance env info spender amount none st).2 =
        .ok r) →
      (query_allowance st info.sender spender).allowance - amount ≠ 0 →
      (execute_decrease_allowance env info spender amount none st).1
          (info.sender, spender) =
        some ⟨(query_allowance st info.sender spender).allowance - amount,
          (query_allowance st info.sender spender).expires⟩) ∧
    query_allowance stepB "owner" "spender" = ⟨3333, .atHeight 123456⟩ ∧
    query_allowance stepC "owner" "spender" = ⟨90987, .atTime timeT⟩ := by
  by_cases hss : info.sender = spender
  · refine ⟨?_, ?_, ?_, ?_, by decide, by decide⟩ <;>
      simp [execute_increase_allowance, execute_decrease_allowance, hss]
  · refine ⟨?_, ?_, ?_, ?_, by decide, by decide⟩
    · intro e hr
      by_cases hf : e.is_future env
      · by_cases hov :
          (query_allowance st info.sender spender).allowance + amount <
            UINT128_MOD
        · simp [execute_increase_allowance, hss, pickExpiration, hf, hov,
            Allowances.set]
        · obtain ⟨r, hr⟩ := hr
          simp [execute_increase_allowance, hss, pickExpiration, hf, hov]
            at hr
      · obtain ⟨r, hr⟩ := hr
        simp [execute_increase_allowance, hss, pickExpiration, hf] at hr
    · intro hr
      by_cases hov :
        (query_allowance st info.sender spender).allowance + amount <
          UINT128_MOD
      · simp [execute_increase_allowance, hss, pickExpiration, hov,
          Allowances.set]
      · obtain ⟨r, hr⟩ := hr
        simp [execute_increase_allowance, hss, pickExpiration, hov] at hr
    · intro e hr hnz
      by_cases hf : e.is_future env
      · simp [execute_decrease_allowance, hss, pickExpiration, hf, hnz,
          Allowances.set]
      · obtain ⟨r, hr⟩ := hr
        simp [execute_decrease_allowance, hss, pickExpiration, hf] at hr
    · intro hr hnz
      simp [execute_decrease_allowance, hss, pickExpiration, hnz,
        Allowances.set]

/-- Witness for C6: the concrete three-step scenario, plus the general
increase clause applied to step 1. -/
theorem allowance_expiration_update_witness :
    query_allowance stepB "owner" "spender" = ⟨3333, .atHeight 123456⟩ ∧
    stepA ("owner", "spender") =
      some ⟨(query_allowance emptyAllowances "owner" "spender").allowance +
        7777, .atHeight 123456⟩ :=
  ⟨(allowance_expiration_update env0 ownerInfo "spender" 7777
      emptyAllowances).2.2.2.2.1,
   (allowance_expiration_update env0 ownerInfo "spender" 7777
      emptyAllowances).1 (.atHeight 123456) ⟨_, rfl⟩⟩

/-- C7: an increase or decrease carrying a new expiration fails
`InvalidExpiration` whenever that expiration is not strictly future —
`AtHeight(h)` with `ctx.height ≥ h`, `AtTime(t)` with `ctx.time ≥ t` — and
succeeds whenever it is strictly future (in particular one unit in the
future), identically for both operations; stated for a caller distinct from
the spender and, for the increase success, a non-overflowing sum. -/
theorem allowance_invalid_expiration (env : Env) (info : MessageInfo)
    (spender : String) (amount : Nat) (st : Allowances) (e : Expiration)
    (hss : info.sender ≠ spender) :
    (e.is_future env = false →
      execute_increase_allowance env info spender amount (some e) st =
        (st, .error .InvalidExpiration) ∧
      execute_decrease_allowance env info spender amount (some e) st =
        (st, .error .InvalidExpiration)) ∧
    (e.is_future env = true →
      ((query_allowance st info.sender spender).allowance + amount <
          UINT128_MOD →
        ∃ r, (execute_increase_allowance env info spender amount (some e)
          st).2 = .ok r) ∧
      ∃ r, (execute_decrease_allowance env info spender amount (some e)
        st).2 = .ok r) ∧
    (∀ hh, (Expiration.atHeight hh).is_future env = false ↔
      hh ≤ env.height) ∧
    (∀ t, (Expiration.atTime t).is_future env = false ↔ t ≤ env.time) ∧
    (Expiration.atHeight (env.height + 1)).is_future env = true ∧
    (Expiration.atTime (env.time + 1)).is_future env = true := by
  refine ⟨?_, ?_, ?_, ?_, ?_, ?_⟩
  · intro hf
    constructor <;>
      simp [execute_increase_allowance, execute_decrease_allowance, hss,
        pickExpiration, hf]
  · intro hf
    constructor
    · intro hov
      simp [execute_increase_allowance, hss, pickExpiration, hf, hov]
    · by_cases hz :
        (query_allowance st info.sender spender).allowance - amount = 0 <;>
        simp [execute_decrease_allowance, hss, pickExpiration, hf, hz]
  · intro hh
    simp [Expiration.is_future, Nat.not_lt]
  · intro t
    simp [Expiration.is_future, Nat.not_lt]
  · simp [Expiration.is_future]
  · simp [Expiration.is_future]

/-- Witness for C7: at the mock height 12345, AtHeight(12345) is rejected
with `InvalidExpiration` by both operations and AtHeight(12346) is
accepted. -/
theorem allowance_invalid_expiration_witness :
    execute_increase_allowance env0 ownerInfo "spender" 1
        (some (.atHeight 12345)) emptyAllowances =
      (emptyAllowances, .error .InvalidExpiration) ∧
    execute_decrease_allowance env0 ownerInfo "spender" 1
        (some (.atHeight 12345)) emptyAllowances =
      (emptyAllowances, .error .InvalidExpiration) ∧
    ∃ r, (execute_increase_allowance env0 ownerInfo "spender" 1
        (some (.atHeight 12346)) emptyAllowances).2 = .ok r :=
  ⟨((allowance_invalid_expiration env0 ownerInfo "spender" 1 emptyAllowances
      (.atHeight 12345) (by decide)).1 (by decide)).1,
   ((allowance_invalid_expiration env0 ownerInfo "spender" 1 emptyAllowances
      (.atHeight 12345) (by decide)).1 (by decide)).2,
   ((allowance_invalid_expiration env0 ownerInfo "spender" 1 emptyAllowances
      (.atHeight 12346) (by decide)).2.1 (by decide)).1 (by decide)⟩

/-- C8: a delegated transfer, burn or send against an expired allowance
fails `Expired` regardless of the remaining amount; one whose amount exceeds
the remaining allowance fails with the arithmetic-overflow class error; and
both failures leave the allowance store and all balances unchanged. -/
theorem delegated_spend_failure (env : Env) (info : MessageInfo)
    (owner recipient contract msg : String) (amount : Nat) (s : SpendState) :
    ((query_allowance s.allowances owner info.sender).expires.is_expired
        env = true →
      execute_transfer_from env info owner recipient amount s =
        (s, .error .Expired) ∧
      execute_burn_from env info owner amount s = (s, .error .Expired) ∧
      execute_send_from env info owner contract amount msg s =
        (s, .error .Expired)) ∧
    ((query_allowance s.allowances owner info.sender).expires.is_expired
        env = false →
      (query_allowance s.allowances owner info.sender).allowance < amount →
      execute_transfer_from env info owner recipient amount s =
        (s, .error (.Std .overflow)) ∧
      execute_burn_from env info owner amount s =
        (s, .error (.Std .overflow)) ∧
      execute_send_from env info owner contract amount msg s =
        (s, .error (.Std .overflow))) := by
  constructor
  · intro hexp
    refine ⟨?_, ?_, ?_⟩ <;>
      simp [execute_transfer_from, execute_burn_from, execute_send_from,
        deduct_allowance, hexp]
  · intro hexp hlt
    refine ⟨?_, ?_, ?_⟩ <;>
      simp [execute_transfer_from, execute_burn_from, execute_send_from,
        deduct_allowance, hexp, hlt]

/-- Witness for C8: at height 5 the allowance of `expiredState` has expired,
so a delegated transfer fails `Expired` and leaves the state unchanged; at
height 4 it is live, and a transfer of 200 > 100 fails with the overflow
class error. -/
theorem delegated_spend_failure_witness :
    execute_transfer_from ⟨5, 0⟩ ⟨"s"⟩ "o" "r" 10 expiredState =
      (expiredState, .error .Expired) ∧
    execute_transfer_from ⟨4, 0⟩ ⟨"s"⟩ "o" "r" 200 expiredState =
      (expiredState, .error (.Std .overflow)) :=
  ⟨((delegated_spend_failure ⟨5, 0⟩ ⟨"s"⟩ "o" "r" "c" "m" 10
      expiredState).1 (by decide)).1,
   ((delegated_spend_failure ⟨4, 0⟩ ⟨"s"⟩ "o" "r" "c" "m" 200
      expiredState).2 (by decide) (by decide)).1⟩

/-- C9: every successful delegated send emits exactly one downstream
message, addressed to the target contract, whose payload carries the
delegated caller as the sender field together with the amount and the opaque
payload; when the caller differs from the owner, the sender field of the payload
is therefore not the owner. -/
theorem send_from_notifies_spender (env : Env) (info : MessageInfo)
    (owner contract msg : String) (amount : Nat) (s s2 : SpendState)
    (r : Response)
    (h : execute_send_from env info owner contract amount msg s =
      (s2, .ok r)) :
    r.messages = [⟨contract, ⟨info.sender, amount, msg⟩, []⟩] ∧
    (info.sender ≠ owner → ∀ m ∈ r.messages, m.msg.sender ≠ owner) := by
  cases hd : deduct_allowance env owner info.sender amount s.allowances with
  | error e => simp [execute_send_from, hd] at h
  | ok allow2 =>
    cases hb : debit s.balances owner amount with
    | error e => simp [execute_send_from, hd, hb] at h
    | ok bal2 =>
      cases hc : credit bal2 contract amount with
      | error e => simp [execute_send_from, hd, hb, hc] at h
      | ok bal3 =>
        simp [execute_send_from, hd, hb, hc] at h
        have hr : r = ((((((Response.empty.add_attribute "action"
            "send_from").add_attribute "from" owner).add_attribute
            "to" contract).add_attribute "by" info.sender).add_attribute
            "amount" (toString amount)).add_message
            ⟨contract, ⟨info.sender, amount, msg⟩, []⟩) := h.2.symm
        subst hr
        constructor
        · simp [Response.add_message, Response.add_attribute, Response.empty]
        · intro hno m hm
          simp [Response.add_message, Response.add_attribute,
            Response.empty] at hm
          subst hm
          simpa using hno

/-- Witness for C9: the concrete send of 30 by spender "s" from owner "o" to
contract "c" carries "s", not "o", as the sender of the notification. -/
theorem send_from_notifies_spender_witness :
    sendResp.messages = [⟨"c", ⟨"s", 30, "payload"⟩, []⟩] ∧
    ((⟨"s"⟩ : MessageInfo).sender ≠ "o" →
      ∀ m ∈ sendResp.messages, m.msg.sender ≠ "o") :=
  send_from_notifies_spender env0 ⟨"s"⟩ "o" "c" "payload" 30 goodState
    (execute_send_from env0 ⟨"s"⟩ "o" "c" 30 "payload" goodState).1
    sendResp rfl

lemma set_positive (st : Allowances) (k : String × String)
    (v : Option AllowanceResponse) (hst : AllowancesPositive st)
    (hv : ∀ r, v = some r → 0 < r.allowance) :
    AllowancesPositive (st.set k v) := by
  intro q r hq
  by_cases h : q = k
  · subst h
    simp [Allowances.set] at hq
    exact hv r hq
  · simp [Allowances.set, h] at hq
    exact hst q r hq

lemma increase_positive (env : Env) (info : MessageInfo) (spender : String)
    (amount : Nat) (e : Option Expiration) (st : Allowances)
    (hpos : AllowancesPositive st) (hamt : 0 < amount) :
    AllowancesPositive
      (execute_increase_allowance env info spender amount e st).1 := by
  by_cases hss : info.sender = spender
  · simpa [execute_increase_allowance, hss] using hpos
  · cases hp : pickExpiration env e
        (query_allowance st info.sender spender).expires with
    | error er => simpa [execute_increase_allowance, hss, hp] using hpos
    | ok exp2 =>
      by_cases hov :
        (query_allowance st info.sender spender).allowance + amount <
          UINT128_MOD
      · simp [execute_increase_allowance, hss, hp, hov]
        exact set_positive st _ _ hpos (by
          intro r hr
          cases hr
          simpa using Or.inr hamt)
      · simpa [execute_increase_allowance, hss, hp, hov] using hpos

lemma decrease_positive (env : Env) (info : MessageInfo) (spender : String)
    (amount : Nat) (e : Option Expiration) (st : Allowances)
    (hpos : AllowancesPositive st) :
    AllowancesPositive
      (execute_decrease_allowance env info spender amount e st).1 := by
  by_cases hss : info.sender = spender
  · simpa [execute_decrease_allowance, hss] using hpos
  · cases hp : pickExpiration env e
        (query_allowance st info.sender spender).expires with
    | error er => simpa [execute_decrease_allowance, hss, hp] using hpos
    | ok exp2 =>
      by_cases hz :
        (query_allowance st info.sender spender).allowance - amount = 0
      · simp [execute_decrease_allowance, hss, hp, hz]
        exact set_positive st _ _ hpos (by intro r hr; cases hr)
      · simp [execute_decrease_allowance, hss, hp, hz]
        exact set_positive st _ _ hpos (by
          intro r hr
          cases hr
          simpa using Nat.pos_of_ne_zero hz)

lemma deduct_positive (env : Env) (owner spender : String) (amount : Nat)
    (st st2 : Allowances) (hpos : AllowancesPositive st)
    (h : deduct_allowance env owner spender amount st = .ok st2) :
    AllowancesPositive st2 := by
  by_cases hexp :
    (query_allowance st owner spender).expires.is_expired env
  · simp [deduct_allowance, hexp] at h
  · by_cases hlt : (query_allowance st owner spender).allowance < amount
    · simp [deduct_allowance, hexp, hlt] at h
    · by_cases hz : (query_allowance st owner spender).allowance - amount = 0
      · simp [deduct_allowance, hexp, hlt, hz] at h
        rw [← h]
        exact set_positive st _ _ hpos (by intro r hr; cases hr)
      · simp [deduct_allowance, hexp, hlt, hz] at h
        rw [← h]
        exact set_positive st _ _ hpos (by
          intro r hr
          cases hr
          simpa using Nat.pos_of_ne_zero hz)

lemma transfer_from_positive (env : Env) (info : MessageInfo)
    (owner recipient : String) (amount : Nat) (s : SpendState)
    (hpos : AllowancesPositive s.allowances) :
    AllowancesPositive
      (execute_transfer_from env info owner recipient amount s).1.allowances
    := by
  cases hd : deduct_allowance env owner info.sender amount s.allowances with
  | error e => simpa [execute_transfer_from, hd] using hpos
  | ok allow2 =>
    have h2 := deduct_positive env owner info.sender amount _ _ hpos hd
    cases hb : debit s.balances owner amount with
    | error e => simpa [execute_transfer_from, hd, hb] using hpos
    | ok bal2 =>
      cases hc : credit bal2 recipient amount with
      | error e => simpa [execute_transfer_from, hd, hb, hc] using hpos
      | ok bal3 => simpa [execute_transfer_from, hd, hb, hc] using h2

lemma burn_from_positive (env : Env) (info : MessageInfo)
    (owner : String) (amount : Nat) (s : SpendState)
    (hpos : AllowancesPositive s.allowances) :
    AllowancesPositive
      (execute_burn_from env info owner amount s).1.allowances := by
  cases hd : deduct_allowance env owner info.sender amount s.allowances with
  | error e => simpa [execute_burn_from, hd] using hpos
  | ok allow2 =>
    have h2 := deduct_positive env owner info.sender amount _ _ hpos hd
    cases hb : debit s.balances owner amount with
    | error e => simpa [execute_burn_from, hd, hb] using hpos
    | ok bal2 => simpa [execute_burn_from, hd, hb] using h2

lemma send_from_positive (env : Env) (info : MessageInfo)
    (owner contract : String) (amount : Nat) (msg : String) (s : SpendState)
    (hpos : AllowancesPositive s.allowances) :
    AllowancesPositive
      (execute_send_from env info owner contract amount msg s).1.allowances
    := by
  cases hd : deduct_allowance env owner info.sender amount s.allowances with
  | error e => simpa [execute_send_from, hd] using hpos
  | ok allow2 =>
    have h2 := deduct_positive env owner info.sender amount _ _ hpos hd
    cases hb : debit s.balances owner amount with
    | error e => simpa [execute_send_from, hd, hb] using hpos
    | ok bal2 =>
      cases hc : credit bal2 contract amount with
      | error e => simpa [execute_send_from, hd, hb, hc] using hpos
      | ok bal3 => simpa [execute_send_from, hd, hb, hc] using h2

/-- C4 counterexample: the empty state is reachable, and one increase by
zero on the absent pair ("owner", "spender") — one of the operations the
claim quantifies over — reaches a state whose store holds a record with
remaining = 0, so not every reachable state satisfies the invariant. -/
theorem allowance_positive_cex :
    ¬ AllowancesPositive
      (runAllowanceOps [.inc env0 ownerInfo "spender" 0 none]
        initialSpendState).allowances := by
  intro hpos
  have h0 := hpos ("owner", "spender") ⟨0, .never⟩ (by decide)
  exact absurd h0 (lt_irrefl 0)

/-- C4 amended: in every state reachable by increase, decrease and delegated
transfer/burn/send from a store satisfying the invariant, every stored
allowance record has remaining > 0, provided every increase carries a
positive amount (an increase by zero on an absent record instead stores a
record with remaining = 0 — see the counterexample); moreover a decrease
that floors the remaining to zero deletes the record rather than storing
zero. -/
theorem allowance_positive_inv (ops : List AllowanceOp) (s : SpendState)
    (hs : AllowancesPositive s.allowances)
    (hops : ∀ op ∈ ops, positiveIncrease op) :
    AllowancesPositive (runAllowanceOps ops s).allowances ∧
    (∀ (env : Env) (info : MessageInfo) (spender : String) (amount : Nat)
        (exps : Option Expiration) (st : Allowances),
      (∃ r, (execute_decrease_allowance env info spender amount exps st).2 =
        .ok r) →
      (query_allowance st info.sender spender).allowance ≤ amount →
      (execute_decrease_allowance env info spender amount exps st).1
        (info.sender, spender) = none) := by
  constructor
  · induction ops generalizing s with
    | nil => simpa [runAllowanceOps] using hs
    | cons op rest ih =>
      have hop : positiveIncrease op := hops op (List.mem_cons_self op rest)
      have hrest : ∀ o ∈ rest, positiveIncrease o :=
        fun o ho => hops o (List.mem_cons_of_mem op ho)
      have hstep : AllowancesPositive (applyAllowanceOp s op).allowances := by
        cases op with
        | inc env info sp amt e =>
          exact increase_positive env info sp amt e s.allowances hs hop
        | dec env info sp amt e =>
          exact decrease_positive env info sp amt e s.allowances hs
        | xfer env info o r amt =>
          exact transfer_from_positive env info o r amt s hs
        | burn env info o amt =>
          exact burn_from_positive env info o amt s hs
        | send env info o c amt m =>
          exact send_from_positive env info o c amt m s hs
      simpa [runAllowanceOps, List.foldl_cons] using
        ih (applyAllowanceOp s op) hstep hrest
  · intro env info spender amount exps st hr hle
    by_cases hss : info.sender = spender
    · obtain ⟨r, hr⟩ := hr
      simp [execute_decrease_allowance, hss] at hr
    · cases hp : pickExpiration env exps
          (query_allowance st info.sender spender).expires with
      | error er =>
        obtain ⟨r, hr⟩ := hr
        simp [execute_decrease_allowance, hss, hp] at hr
      | ok exp2 =>
        have hz : (query_allowance st info.sender spender).allowance -
            amount = 0 := Nat.sub_eq_zero_of_le hle
        simp [execute_decrease_allowance, hss, hp, hz, Allowances.set]

/-- Witness for C4 amended: two positive operations from the empty state —
an increase of 7777 then a decrease by a much larger amount — keep the
invariant, and that oversized decrease deletes the record. -/
theorem allowance_positive_inv_witness :
    AllowancesPositive
      (runAllowanceOps
        [.inc env0 ownerInfo "spender" 7777 none,
         .dec env0 ownerInfo "spender" 99988647623876347 none]
        initialSpendState).allowances ∧
    (execute_decrease_allowance env0 ownerInfo "spender" 99988647623876347
        none stepA).1 ("owner", "spender") = none :=
  ⟨(allowance_positive_inv
      [.inc env0 ownerInfo "spender" 7777 none,
       .dec env0 ownerInfo "spender" 99988647623876347 none]
      initialSpendState
      (fun k r h => by simp [initialSpendState] at h)
      (by
        intro op hop
        simp [List.mem_cons] at hop
        rcases hop with rfl | rfl <;> simp [positiveIncrease])).1,
   (allowance_positive_inv [] initialSpendState
      (fun k r h => by simp [initialSpendState] at h)
      (by intro op hop; cases hop)).2
     env0 ownerInfo "spender" 99988647623876347 none stepA
     ⟨_, rfl⟩ (by decide)⟩

end AllowanceTheorems

end Cw20
